import Mathlib

/-!
Verification development for the automd repository: a shallow embedding of the
endpoint-to-specification resolution pipeline of `automd/automd.py` (class
`AutoMD`) and of its older variant `autoapi/autoapi.py` (class `AutoAPI`),
together with proofs of the documented properties of that pipeline.

Python values are embedded as plain inductive data: mappings that preserve
insertion order (Python `dict`) become association lists, the `None` value
becomes an explicit constructor, and a raised exception becomes the `error`
case of `Except`.
-/

set_option autoImplicit false

namespace AutoMDSpec

/-- An embedded Python scalar value (used for parameter default values). -/
inductive PyVal where
  | pynone
  | str (s : String)
  | int (n : Int)
  | bool (b : Bool)
deriving DecidableEq, Repr

/-- The kinds of uncaught Python exceptions the embedded pipeline can raise. -/
inductive PyError where
  | keyError
  | attributeError
  | typeError
deriving DecidableEq, Repr

/-- A Python type annotation as it appears in a callable signature. -/
inductive TypeAnn where
  | str
  | int
  | float
  | bool
  | anyT
  | other (s : String)
deriving DecidableEq, Repr

/-- The webargs field constructors that the type-to-field table can map to
(`fields.String`, `fields.Integer`, ..., `fields.Raw`, `fields.Field`). -/
inductive FieldType where
  | string
  | integer
  | number
  | boolean
  | raw
  | field
deriving DecidableEq, Repr

/-- A webargs field as the pipeline observes it: the `location` metadata entry
(absent means unspecified), the `required` flag, and the keyword arguments the
Type Inference Resolver can pass when it constructs a field
(`doc_default`, `allow_none`, `description`).  `allow_none` records the raw
keyword value as passed; `none` means the keyword was not passed at all. -/
structure Field where
  location : Option String := none
  required : Bool := false
  doc_default : Option PyVal := none
  allow_none : Option PyVal := none
  description : Option String := none
  fieldType : Option FieldType := none
deriving DecidableEq, Repr

/-- One parameter of a callable signature: its name, its type annotation and
its declared default value (`none` embeds `inspect._empty`, i.e. no default). -/
structure Param where
  name : String
  annot : TypeAnn
  default : Option PyVal
deriving DecidableEq, Repr

/-- Association-list lookup, the embedding of Python `dict` indexing
(`d[k]` / `k in d`) for string keys. -/
def lookupStr {α : Type} : List (String × α) → String → Option α
  | [], _ => none
  | (k, v) :: rest, q => if k = q then some v else lookupStr rest q

/-- `field.metadata.get("location", "query")` from `parse_parameter_schema`. -/
def fieldLocation (f : Field) : String := f.location.getD "query"

/-- Modelled from the spec: the type-to-field mapping table
`type_field_mapping` lives in `automd.responses.responses`, which is not among
the provided sources.  Spec sections 4.1 and 8 fix that `str` maps to a string
field, that the basic scalar annotations map to matching field kinds, and that
an unmapped annotation has no entry (a `dict` lookup then raises `KeyError`).
The `anyT` annotation maps to the unspecified/raw field kind. -/
def type_field_mapping : TypeAnn → Option FieldType
  | TypeAnn.str => some FieldType.string
  | TypeAnn.int => some FieldType.integer
  | TypeAnn.float => some FieldType.number
  | TypeAnn.bool => some FieldType.boolean
  | TypeAnn.anyT => some FieldType.raw
  | TypeAnn.other _ => none

/-- The field built by the inference loop of `parse_parameter_schema`
(automd.py lines 73-87) once the table lookup `tfm` has succeeded with `ft`:
`required` is `param.default == inspect._empty`; `doc_default` is passed iff a
default is declared; `allow_none` is assigned `param.default` itself (the
value `None`) exactly when the default is `None`; the generic description is
attached for the `Raw` and `Field` kinds. -/
def mkInferredField (ft : FieldType) (p : Param) : Field :=
  { location := none
    required := p.default.isNone
    doc_default := p.default
    allow_none := if p.default = some PyVal.pynone then some PyVal.pynone else none
    description :=
      if ft = FieldType.raw ∨ ft = FieldType.field then
        some "parameter of unspecified type"
      else none
    fieldType := some ft }

/-- Inference for a single signature parameter: the table lookup
`type_field_mapping[param.annotation]` raises `KeyError` when the annotation
has no entry, otherwise the field is constructed. -/
def inferField (tfm : TypeAnn → Option FieldType) (p : Param) : Except PyError Field :=
  match tfm p.annot with
  | none => Except.error PyError.keyError
  | some ft => Except.ok (mkInferredField ft p)

/-- The inference loop of `parse_parameter_schema` (automd.py lines 66-88):
iterate the signature parameters in order, skip any parameter named `self`,
and build one field per remaining parameter; the first unmapped annotation
raises `KeyError`. -/
def inferParams (tfm : TypeAnn → Option FieldType) :
    List Param → Except PyError (List (String × Field))
  | [] => Except.ok []
  | q :: rest =>
    if q.name = "self" then inferParams tfm rest
    else
      match tfm q.annot with
      | none => Except.error PyError.keyError
      | some ft =>
        match inferParams tfm rest with
        | Except.error e => Except.error e
        | Except.ok tail => Except.ok ((q.name, mkInferredField ft q) :: tail)

/-- Insert a field into the per-location accumulator exactly as the loop at
automd.py lines 96-101 does: append to the bucket of `loc` when that bucket
exists, otherwise create the bucket at the end (Python dict insertion order). -/
def insertGrouped (m : List (String × List (String × Field))) (loc : String)
    (nf : String × Field) : List (String × List (String × Field)) :=
  match m with
  | [] => [(loc, [nf])]
  | (l, b) :: rest =>
    if l = loc then (l, b ++ [nf]) :: rest
    else (l, b) :: insertGrouped rest loc nf

/-- The grouping loop: fold the fields, in their original order, into the
per-location accumulator. -/
def location_argmaps_go (acc : List (String × List (String × Field))) :
    List (String × Field) → List (String × List (String × Field))
  | [] => acc
  | nf :: rest => location_argmaps_go (insertGrouped acc (fieldLocation nf.2) nf) rest

/-- `location_argmaps` from `parse_parameter_schema` (automd.py lines 95-101):
the per-location grouping of a flat, insertion-ordered field mapping. -/
def location_argmaps (params : List (String × Field)) :
    List (String × List (String × Field)) :=
  location_argmaps_go [] params

/-- The concatenation of all location buckets, used to state the partition
property of the grouping. -/
def buckets_join : List (String × List (String × Field)) → List (String × Field)
  | [] => []
  | g :: gs => g.2 ++ buckets_join gs

/-- Python `str.title()` on ASCII text: an alphabetic character is uppercased
when the preceding character is not alphabetic and lowercased otherwise. -/
def pyTitleGo : Bool → List Char → List Char
  | _, [] => []
  | prevAlpha, c :: cs =>
    if c.isAlpha then
      (if prevAlpha then c.toLower else c.toUpper) :: pyTitleGo true cs
    else
      c :: pyTitleGo false cs

/-- Python `str.title()` (ASCII). -/
def pyTitle (s : String) : String := String.mk (pyTitleGo false s.data)

/-- Python `str.lower()` (ASCII). -/
def pyLower (s : String) : String := String.mk (s.data.map Char.toLower)

/-- Python `s.split(sep)` for a one-character separator: split at every
occurrence, keeping empty segments (`"/status".split("/")` is
`["", "status"]`). -/
def splitOnChar (c : Char) : List Char → List (List Char)
  | [] => [[]]
  | x :: xs =>
    if x = c then [] :: splitOnChar c xs
    else
      match splitOnChar c xs with
      | [] => [[x]]
      | h :: t => (x :: h) :: t

/-- `"".join([part.title() for part in path_url.split("/")])`
(automd.py line 108 and line 138). -/
def url_name (path_url : String) : String :=
  String.join ((splitOnChar '/' path_url.data).map (fun cs => pyTitle (String.mk cs)))

/-- One materialized location sub-schema: the deterministically derived schema
name and the ordered field mapping handed to `Schema.from_dict`. -/
structure SubSchema where
  name : String
  fields : List (String × Field)
deriving DecidableEq, Repr

/-- The composite parameter schema: the `Meta.include` mapping of the
`ParameterSchema` class built at automd.py lines 112-120, keyed by location. -/
structure CompositeSchema where
  meta_include : List (String × SubSchema)
deriving DecidableEq, Repr

/-- `parse_parameter_schema` (automd.py lines 61-120).  `parameter_object` is
the caller-declared field mapping (a `dict`, or a `Schema` whose `.fields`
exposes the same mapping; both are embedded as the mapping itself); when it is
`None` the field mapping is inferred from the callable signature.  The result
is the composite schema of named per-location sub-schemas. -/
def parse_parameter_schema (tfm : TypeAnn → Option FieldType)
    (parameter_object : Option (List (String × Field)))
    (func_signature : List Param) (path_url http_verb : String) :
    Except PyError CompositeSchema :=
  match
    (match parameter_object with
     | none => inferParams tfm func_signature
     | some d => Except.ok d) with
  | Except.error e => Except.error e
  | Except.ok parameter_dict =>
    Except.ok
      ⟨(location_argmaps parameter_dict).map (fun g =>
        (g.1, ⟨url_name path_url ++ pyTitle http_verb ++ pyTitle g.1 ++ "Schema", g.2⟩))⟩

/-- A resolved or declared response schema: either a schema synthesized by
`Schema.from_dict(mapping, name=...)`, or a schema object produced by some
interface, identified abstractly. -/
inductive Schema where
  | from_dict (name : String) (fields : List (String × Field))
  | obj (oid : Nat)
deriving DecidableEq, Repr

/-- A Python object as seen by the response resolver: its identity, its
optional `_name` attribute, and its optional `to_schema` / `content_type`
capabilities (`none` embeds the absent attribute, whose call raises
`AttributeError`). -/
structure RObj where
  oid : Nat := 0
  _name : Option String := none
  to_schema : Option Schema := none
  content_type : Option String := none
deriving DecidableEq, Repr

/-- A value that can appear as a response descriptor or as a key or value of
the recognized-response-type table: the Python `None`, a string, or an
object. -/
inductive RVal where
  | pynone
  | str (s : String)
  | obj (o : RObj)
deriving DecidableEq, Repr

/-- Lookup in the recognized-response-type table `response_object_type_map`
(an embedding of Python `dict` lookup over heterogeneous keys).  The table
itself lives in `automd.responses.responses`, outside the provided sources,
so the pipeline is stated for an arbitrary table. -/
def lookupTbl : List (RVal × RVal) → RVal → Option RVal
  | [], _ => none
  | (k, v) :: rest, q => if k = q then some v else lookupTbl rest q

/-- `getattr(x, "_name", None)`: the `_name` attribute of an object, or the
Python `None` when the attribute is absent (strings and `None` have none). -/
def get_name : RVal → RVal
  | RVal.obj o =>
    match o._name with
    | some n => RVal.str n
    | none => RVal.pynone
  | _ => RVal.pynone

/-- The `to_schema` capability of a value (`none`: calling it raises
`AttributeError`). -/
def get_to_schema : RVal → Option Schema
  | RVal.obj o => o.to_schema
  | _ => none

/-- The `content_type` capability of a value (`none`: calling it raises
`AttributeError`). -/
def get_content_type : RVal → Option String
  | RVal.obj o => o.content_type
  | _ => none

/-- The fixed fallback media type:
`mimetypes.MimeTypes().types_map[1][".txt"]` resolves to `"text/plain"` in
the Python standard library. -/
def default_content_type : String := "text/plain"

/-- The three-tier interface resolution shared by automd.py lines 126-132 and
autoapi.py lines 111-117: (1) the descriptor itself as a table key, (2) the
descriptor's `_name` attribute as a table key — note that the membership test
uses `getattr(ro, "_name", None)` but the subsequent index re-reads
`ro._name`, which raises `AttributeError` when the attribute is absent and
the table happens to contain the key `None` — (3) the descriptor itself. -/
def resolve_response_interface (tbl : List (RVal × RVal)) (response_object : RVal) :
    Except PyError RVal :=
  match lookupTbl tbl response_object with
  | some i => Except.ok i
  | none =>
    match lookupTbl tbl (get_name response_object) with
    | some i =>
      match response_object with
      | RVal.obj o =>
        match o._name with
        | some _ => Except.ok i
        | none => Except.error PyError.attributeError
      | _ => Except.error PyError.attributeError
    | none => Except.ok response_object

/-- `parse_response_schema` (automd.py lines 122-148): resolve the interface,
then take its schema — synthesizing an empty named schema when the interface
is `None`, raising `AttributeError` when a non-`None` interface lacks
`to_schema` — and finally its content type, falling back to the fixed default
media type when the `content_type` capability is absent. -/
def parse_response_schema (tbl : List (RVal × RVal)) (response_object : RVal)
    (path_url http_verb : String) : Except PyError (Schema × String) :=
  match resolve_response_interface tbl response_object with
  | Except.error e => Except.error e
  | Except.ok response_interface =>
    match
      (if response_interface = RVal.pynone then
        Except.ok (Schema.from_dict (url_name path_url ++ pyTitle http_verb ++ "ResponseSchema") [])
      else
        match get_to_schema response_interface with
        | some s => Except.ok s
        | none => (Except.error PyError.attributeError : Except PyError Schema)) with
    | Except.error e => Except.error e
    | Except.ok response_schema =>
      Except.ok
        (response_schema,
         match get_content_type response_interface with
         | some ct => ct
         | none => default_content_type)

/-- A tag object `{"name": ...}`. -/
structure Tag where
  name : String
deriving DecidableEq, Repr

/-- One entry of the `parameters` list of an operation:
`{"in": ..., "name": ... (automd only), "schema": ...}`. -/
structure ParamEntry where
  in_loc : String
  pname : Option String
  schema : CompositeSchema
deriving DecidableEq, Repr

/-- One entry of the `responses` mapping: the standard status phrase and the
content map from media type to schema. -/
structure RespContent where
  description : String
  content : List (String × Schema)
deriving DecidableEq, Repr

/-- One operation record as assembled by `register_path`. -/
structure Operation where
  responses : List (String × RespContent)
  parameters : List ParamEntry
  summary : Option String
  description : Option String
  tags : List Tag
deriving DecidableEq, Repr

/-- The specification document: the path table of an `APISpec`, keyed by URL
path and then by lowercased HTTP verb. -/
structure APISpecDoc where
  paths : List (String × List (String × Operation))
deriving DecidableEq, Repr

/-- `start_spec`: a fresh specification document. -/
def start_spec : APISpecDoc := ⟨[]⟩

/-- Ordered association-list update: replace the entry in place when the key
exists, append it otherwise (Python `dict` assignment). -/
def assoc_set {α : Type} : List (String × α) → String → α → List (String × α)
  | [], k, v => [(k, v)]
  | (k₀, v₀) :: rest, k, v =>
    if k₀ = k then (k, v) :: rest
    else (k₀, v₀) :: assoc_set rest k v

/-- Modelled from the spec (section 4.5): `api_spec.path(path, operations)` of
the external apispec library inserts the operation under its `(path, verb)`
key, overwriting any previous entry for that key. -/
def spec_path (doc : APISpecDoc) (path verb : String) (op : Operation) : APISpecDoc :=
  ⟨assoc_set doc.paths path (assoc_set ((lookupStr doc.paths path).getD []) verb op)⟩

/-- The standard HTTP status phrase table (Python `http.client.responses`),
restricted to common codes; a code outside the table models the `KeyError`
of `responses[response_code]`. -/
def http_client_responses : Nat → Option String
  | 200 => some "OK"
  | 201 => some "Created"
  | 204 => some "No Content"
  | 301 => some "Moved Permanently"
  | 400 => some "Bad Request"
  | 401 => some "Unauthorized"
  | 403 => some "Forbidden"
  | 404 => some "Not Found"
  | 500 => some "Internal Server Error"
  | _ => none

/-- The constructor state of an `AutoMD` (or `AutoAPI`) instance: the
application title and the optional `default_tag` argument. -/
structure AutoMDConfig where
  title : String
  default_tag : Option String := none
deriving DecidableEq, Repr

/-- `self.default_tag = {"name": default_tag or title}` (automd.py line 38):
Python `or` falls back to the title when `default_tag` is `None` or the empty
string. -/
def AutoMDConfig.default_tag_value (am : AutoMDConfig) : Tag :=
  ⟨match am.default_tag with
   | none => am.title
   | some s => if s = "" then am.title else s⟩

/-- `tags or [self.default_tag]` (automd.py line 195): Python `or` yields the
default singleton when `tags` is `None` or the empty list. -/
def tags_or_default (tags : Option (List Tag)) (d : Tag) : List Tag :=
  match tags with
  | none => [d]
  | some [] => [d]
  | some (t :: ts) => t :: ts

/-- `register_path` (automd.py lines 150-204): parse the parameter schema,
parse the response schema and content type, assemble the operation record —
responses keyed by the stringified code with the standard status phrase, the
parameter schema nested under a single `{"in": "query", "name": "test"}`
entry, tags defaulted — and insert it into the document under
`(path_url, http_verb.lower())`. -/
def register_path (am : AutoMDConfig) (tfm : TypeAnn → Option FieldType)
    (tbl : List (RVal × RVal)) (api_spec : APISpecDoc)
    (path_url http_verb : String) (response_code : Nat)
    (summary description : Option String)
    (parameter_object : Option (List (String × Field)))
    (response_object : RVal) (func_signature : List Param)
    (tags : Option (List Tag)) : Except PyError APISpecDoc :=
  match parse_parameter_schema tfm parameter_object func_signature path_url http_verb with
  | Except.error e => Except.error e
  | Except.ok parameter_schema =>
    match parse_response_schema tbl response_object path_url http_verb with
    | Except.error e => Except.error e
    | Except.ok rs =>
      match http_client_responses response_code with
      | none => Except.error PyError.keyError
      | some desc =>
        Except.ok (spec_path api_spec path_url (pyLower http_verb)
          { responses := [(toString response_code, ⟨desc, [(rs.2, rs.1)]⟩)]
            parameters := [⟨"query", some "test", parameter_schema⟩]
            summary := summary
            description := description
            tags := tags_or_default tags am.default_tag_value })

/-- The metadata object attached to a handler under the `automd_spec` marker
key (consumed at automd.py lines 223-230). -/
structure AutoMDAttr where
  response_schemas : Option (List (String × RVal))
  parameter_schema : Option (List (String × Field))
  func_signature : List Param
  summary : Option String
  description : Option String
  tags : Option (List Tag)

/-- One view function of the host application as the introspector observes
it: its supported methods (absent models a view without a `methods`
attribute, which is skipped), the URL produced by `url_for`, and the
per-method `automd_spec` attribute keyed by lowercased method name. -/
structure View where
  methods : Option (List String)
  url : String
  spec_attr : List (String × AutoMDAttr)

/-- Error-propagating left fold, the embedding of a Python loop in which any
iteration may raise. -/
def foldE {α : Type} (f : APISpecDoc → α → Except PyError APISpecDoc) :
    APISpecDoc → List α → Except PyError APISpecDoc
  | d, [] => Except.ok d
  | d, x :: xs =>
    match f d x with
    | Except.error e => Except.error e
    | Except.ok d₀ => foldE f d₀ xs

/-- The body of the introspection loop for one `(view, method)` pair
(automd.py lines 220-240): when the `automd_spec` attribute is present,
fetch `response_schemas` with `.get` (absent gives `None`), index it with
`["200"]` — `None["200"]` raises `TypeError`, a missing key raises
`KeyError` — and register the path with the fixed status code 200. -/
def register_view_method (am : AutoMDConfig) (tfm : TypeAnn → Option FieldType)
    (tbl : List (RVal × RVal)) (doc : APISpecDoc) (v : View) (method : String) :
    Except PyError APISpecDoc :=
  match lookupStr v.spec_attr (pyLower method) with
  | none => Except.ok doc
  | some attr =>
    match
      (match attr.response_schemas with
       | none => (Except.error PyError.typeError : Except PyError RVal)
       | some rs =>
         match lookupStr rs "200" with
         | none => Except.error PyError.keyError
         | some ro => Except.ok ro) with
    | Except.error e => Except.error e
    | Except.ok ro =>
      register_path am tfm tbl doc v.url method 200 attr.summary attr.description
        attr.parameter_schema ro attr.func_signature attr.tags

/-- The inner loop of `application_to_apispec` over one view's methods. -/
def register_view (am : AutoMDConfig) (tfm : TypeAnn → Option FieldType)
    (tbl : List (RVal × RVal)) (doc : APISpecDoc) (v : View) :
    Except PyError APISpecDoc :=
  match v.methods with
  | none => Except.ok doc
  | some ms => foldE (fun d m => register_view_method am tfm tbl d v m) doc ms

/-- `application_to_apispec` (automd.py lines 206-241): start a fresh
document and drive the registration loop over every view of the
application. -/
def application_to_apispec (am : AutoMDConfig) (tfm : TypeAnn → Option FieldType)
    (tbl : List (RVal × RVal)) (views : List View) : Except PyError APISpecDoc :=
  foldE (fun d v => register_view am tfm tbl d v) start_spec views

/-- The response part of `AutoAPI.register_path` (autoapi.py lines 111-126):
the same three-tier interface resolution, but `to_schema` is called
unconditionally — there is no null-descriptor fallback — and the content
type falls back to the fixed default. -/
def autoapi_resolve_response (tbl : List (RVal × RVal)) (response_object : RVal) :
    Except PyError (Schema × String) :=
  match resolve_response_interface tbl response_object with
  | Except.error e => Except.error e
  | Except.ok ri =>
    match get_to_schema ri with
    | none => Except.error PyError.attributeError
    | some s =>
      Except.ok
        (s,
         match get_content_type ri with
         | some ct => ct
         | none => default_content_type)

/-- `AutoAPI.register_path` (autoapi.py lines 59-152): no signature-based
inference exists, so a `None` parameter object reaches
`parameter_dict.items()` and raises `AttributeError`; the location grouping is
the same as the automd variant, but the sub-schemas are generated by
`dict2schema` without a caller-derived name (embedded here with an empty
name); the response resolution has no null-descriptor fallback. -/
def autoapi_register_path (aa : AutoMDConfig) (tbl : List (RVal × RVal))
    (api_spec : APISpecDoc) (path_url http_verb : String) (response_code : Nat)
    (summary description : Option String)
    (parameter_object : Option (List (String × Field)))
    (response_object : RVal) (tags : Option (List Tag)) :
    Except PyError APISpecDoc :=
  match parameter_object with
  | none => Except.error PyError.attributeError
  | some parameter_dict =>
    match autoapi_resolve_response tbl response_object with
    | Except.error e => Except.error e
    | Except.ok rs =>
      match http_client_responses response_code with
      | none => Except.error PyError.keyError
      | some desc =>
        Except.ok (spec_path api_spec path_url (pyLower http_verb)
          { responses := [(toString response_code, ⟨desc, [(rs.2, rs.1)]⟩)]
            parameters :=
              [⟨"query", none,
                ⟨(location_argmaps parameter_dict).map (fun g => (g.1, ⟨"", g.2⟩))⟩⟩]
            summary := summary
            description := description
            tags := tags_or_default tags aa.default_tag_value })

/-- A concrete field mapping exercising Claim C1: one field with no declared
location and one declared for the `json` location. -/
def c1_params : List (String × Field) :=
  [("a", {}), ("b", { location := some "json" })]

/-- A recognized interface for the C2 and C3 witnesses. -/
def c2_iface : RVal :=
  RVal.obj { oid := 10, to_schema := some (Schema.obj 10),
             content_type := some "application/json" }

/-- A one-entry recognized-response-type table for the witnesses. -/
def c2_tbl : List (RVal × RVal) := [(RVal.str "ValueResponse", c2_iface)]

/-- A self-describing descriptor with a schema but no content-type
capability, for the C3 witness. -/
def c3_ro : RVal := RVal.obj { oid := 3, to_schema := some (Schema.obj 3) }

/-- A parameter with a string annotation and no default, for the C4 witness. -/
def c4_param : Param := ⟨"text2", TypeAnn.str, none⟩

/-- The field inferred for `c4_param`. -/
def c4_field : Field := { required := true, fieldType := some FieldType.string }

/-- The failing input of Claim C5: a parameter whose declared default is
exactly the Python `None`. -/
def c5_param : Param := ⟨"text", TypeAnn.str, some PyVal.pynone⟩

/-- A signature with an unmapped annotation, for the C6 witness. -/
def c6_sig : List Param :=
  [⟨"self", TypeAnn.other "Status", none⟩, ⟨"x", TypeAnn.other "Weird", none⟩]

/-- The unmapped parameter inside `c6_sig`. -/
def c6_param : Param := ⟨"x", TypeAnn.other "Weird", none⟩

/-- The document produced by the C7 witness registration. -/
def c7_doc : APISpecDoc :=
  ((register_path ⟨"TestApp", none⟩ type_field_mapping [] start_spec "/status" "GET"
      200 none none (some []) RVal.pynone [] none).toOption).getD start_spec

/-- The document produced by the C8 witness registration. -/
def c8_doc : APISpecDoc :=
  ((register_path ⟨"T", none⟩ type_field_mapping [] start_spec "/s" "GET"
      200 none none (some []) RVal.pynone [] none).toOption).getD start_spec

/-- Metadata whose response mapping lacks the `"200"` key, for the C9
witness. -/
def c9_attr_bad : AutoMDAttr := ⟨some [], none, [], none, none, none⟩

/-- A marked view carrying `c9_attr_bad` for its `GET` method. -/
def c9_view_bad : View := ⟨some ["GET"], "/s", [("get", c9_attr_bad)]⟩

/-- Metadata whose response mapping has a `"200"` entry, for the C9
witness. -/
def c9_attr_ok : AutoMDAttr := ⟨some [("200", RVal.pynone)], some [], [], none, none, none⟩

/-- A marked view carrying `c9_attr_ok` for its `GET` method. -/
def c9_view_ok : View := ⟨some ["GET"], "/s", [("get", c9_attr_ok)]⟩

theorem buckets_join_insertGrouped (m : List (String × List (String × Field)))
    (loc : String) (nf : String × Field) :
    (buckets_join (insertGrouped m loc nf)).Perm (buckets_join m ++ [nf]) := by
  induction m with
  | nil => simp [insertGrouped, buckets_join]
  | cons g rest ih =>
    obtain ⟨l, b⟩ := g
    by_cases h : l = loc
    · simp only [insertGrouped, if_pos h, buckets_join]
      rw [List.append_assoc b [nf], List.append_assoc b (buckets_join rest)]
      exact List.Perm.append_left b List.perm_append_comm
    · simp only [insertGrouped, if_neg h, buckets_join]
      rw [List.append_assoc b (buckets_join rest)]
      exact List.Perm.append_left b ih

theorem buckets_join_location_argmaps_go (l : List (String × Field)) :
    ∀ acc, (buckets_join (location_argmaps_go acc l)).Perm (buckets_join acc ++ l) := by
  induction l with
  | nil => intro acc; simp [location_argmaps_go]
  | cons nf rest ih =>
    intro acc
    simp only [location_argmaps_go]
    refine (ih (insertGrouped acc (fieldLocation nf.2) nf)).trans ?_
    refine (List.Perm.append_right rest
      (buckets_join_insertGrouped acc (fieldLocation nf.2) nf)).trans ?_
    rw [List.append_assoc]
    exact List.Perm.refl _

/-- The grouping is exhaustive and non-duplicating: the concatenation of all
location buckets is a permutation of the input field mapping. -/
theorem buckets_join_location_argmaps (params : List (String × Field)) :
    (buckets_join (location_argmaps params)).Perm params := by
  have h := buckets_join_location_argmaps_go params []
  simpa [location_argmaps, buckets_join] using h

theorem lookupStr_insertGrouped_self (m : List (String × List (String × Field)))
    (loc : String) (nf : String × Field) :
    lookupStr (insertGrouped m loc nf) loc = some ((lookupStr m loc).getD [] ++ [nf]) := by
  induction m with
  | nil => simp [insertGrouped, lookupStr]
  | cons g rest ih =>
    obtain ⟨l, b⟩ := g
    by_cases h : l = loc
    · simp [insertGrouped, h, lookupStr]
    · simp [insertGrouped, h, lookupStr, ih]

theorem lookupStr_insertGrouped_ne (m : List (String × List (String × Field)))
    (loc l₀ : String) (nf : String × Field) (h : l₀ ≠ loc) :
    lookupStr (insertGrouped m loc nf) l₀ = lookupStr m l₀ := by
  induction m with
  | nil => simp [insertGrouped, lookupStr, Ne.symm h]
  | cons g rest ih =>
    obtain ⟨l, b⟩ := g
    by_cases hl : l = loc
    · subst hl
      simp [insertGrouped, lookupStr, Ne.symm h]
    · by_cases hq : l = l₀
      · simp [insertGrouped, hl, lookupStr, hq, h]
      · simp [insertGrouped, hl, lookupStr, hq, ih]

theorem mem_bucket_insertGrouped {m : List (String × List (String × Field))}
    {loc : String} {b : List (String × Field)} {nf₀ : String × Field}
    (hl : lookupStr m loc = some b) (hm : nf₀ ∈ b)
    (loc₂ : String) (nf₂ : String × Field) :
    ∃ b₀, lookupStr (insertGrouped m loc₂ nf₂) loc = some b₀ ∧ nf₀ ∈ b₀ := by
  by_cases h : loc = loc₂
  · subst h
    refine ⟨b ++ [nf₂], ?_, List.mem_append_left _ hm⟩
    rw [lookupStr_insertGrouped_self, hl]
    rfl
  · exact ⟨b, by rw [lookupStr_insertGrouped_ne m loc₂ loc nf₂ h]; exact hl, hm⟩

theorem mem_bucket_go (l : List (String × Field)) :
    ∀ acc (nf₀ : String × Field),
      ((∃ b, lookupStr acc (fieldLocation nf₀.2) = some b ∧ nf₀ ∈ b) ∨ nf₀ ∈ l) →
      ∃ b, lookupStr (location_argmaps_go acc l) (fieldLocation nf₀.2) = some b ∧ nf₀ ∈ b := by
  induction l with
  | nil =>
    intro acc nf₀ h
    simpa [location_argmaps_go] using h.resolve_right (by simp)
  | cons q rest ih =>
    intro acc nf₀ h
    simp only [location_argmaps_go]
    apply ih
    rcases h with ⟨b, hb, hmem⟩ | hmem
    · exact Or.inl (mem_bucket_insertGrouped hb hmem _ _)
    · rcases List.mem_cons.mp hmem with heq | hmem₀
      · subst heq
        refine Or.inl ⟨(lookupStr acc (fieldLocation nf₀.2)).getD [] ++ [nf₀], ?_, ?_⟩
        · exact lookupStr_insertGrouped_self acc (fieldLocation nf₀.2) nf₀
        · exact List.mem_append_right _ (by simp)
      · exact Or.inr hmem₀

/-- A field whose declared location is `loc` ends up in the bucket keyed
`loc`. -/
theorem mem_location_bucket {params : List (String × Field)} {nf₀ : String × Field}
    (h : nf₀ ∈ params) :
    ∃ b, lookupStr (location_argmaps params) (fieldLocation nf₀.2) = some b ∧ nf₀ ∈ b :=
  mem_bucket_go params [] nf₀ (Or.inr h)

theorem mem_buckets_join {gs : List (String × List (String × Field))}
    {g : String × List (String × Field)} {x : String × Field}
    (hg : g ∈ gs) (hx : x ∈ g.2) : x ∈ buckets_join gs := by
  induction gs with
  | nil => cases hg
  | cons g₀ rest ih =>
    simp only [buckets_join]
    rcases List.mem_cons.mp hg with rfl | h
    · exact List.mem_append_left _ hx
    · exact List.mem_append_right _ (ih h)

theorem exists_bucket_of_mem_join {gs : List (String × List (String × Field))}
    {x : String × Field} (hx : x ∈ buckets_join gs) : ∃ g ∈ gs, x ∈ g.2 := by
  induction gs with
  | nil => cases hx
  | cons g₀ rest ih =>
    simp only [buckets_join] at hx
    rcases List.mem_append.mp hx with h | h
    · exact ⟨g₀, List.mem_cons_self _ _, h⟩
    · obtain ⟨g, hg, hxg⟩ := ih h
      exact ⟨g, List.mem_cons_of_mem _ hg, hxg⟩

theorem pairwise_disjoint_of_join_nodup (gs : List (String × List (String × Field)))
    (h : ((buckets_join gs).map Prod.fst).Nodup) :
    List.Pairwise (fun g₁ g₂ => ∀ n, n ∈ g₁.2.map Prod.fst → n ∉ g₂.2.map Prod.fst) gs := by
  induction gs with
  | nil => exact List.Pairwise.nil
  | cons g rest ih =>
    simp only [buckets_join, List.map_append] at h
    rw [List.nodup_append] at h
    obtain ⟨h1, h2, hdisj⟩ := h
    refine List.Pairwise.cons ?_ (ih h2)
    intro g₀ hg₀ n hn hn₀
    have hjoin : n ∈ (buckets_join rest).map Prod.fst := by
      rcases List.mem_map.mp hn₀ with ⟨x, hx, rfl⟩
      exact List.mem_map.mpr ⟨x, mem_buckets_join hg₀ hx, rfl⟩
    exact hdisj hn hjoin

/-- Claim C1: for every collection of field descriptors handed to the
Location Grouping Resolver, the per-location grouping is a partition of the
input: the bucket name-keys jointly are a permutation of the input field
names, the buckets are pairwise disjoint (for the duplicate-free name sets a
Python dict supplies), every field lands in some bucket, a field with no
declared location lands in the `query` bucket, and an empty input yields a
composite schema with zero location buckets. -/
theorem automd_C1 (tfm : TypeAnn → Option FieldType) (params : List (String × Field))
    (sig : List Param) (path_url http_verb : String)
    (hnd : (params.map Prod.fst).Nodup) :
    ((buckets_join (location_argmaps params)).map Prod.fst).Perm (params.map Prod.fst)
    ∧ List.Pairwise (fun g₁ g₂ => ∀ n, n ∈ g₁.2.map Prod.fst → n ∉ g₂.2.map Prod.fst)
        (location_argmaps params)
    ∧ (∀ nf : String × Field, nf ∈ params → ∃ g ∈ location_argmaps params, nf ∈ g.2)
    ∧ (∀ nf : String × Field, nf ∈ params → nf.2.location = none →
        ∃ b, lookupStr (location_argmaps params) "query" = some b ∧ nf ∈ b)
    ∧ parse_parameter_schema tfm (some []) sig path_url http_verb = Except.ok ⟨[]⟩ := by
  have hperm : (buckets_join (location_argmaps params)).Perm params :=
    buckets_join_location_argmaps params
  have hnames := hperm.map Prod.fst
  refine ⟨hnames, ?_, ?_, ?_, rfl⟩
  · exact pairwise_disjoint_of_join_nodup _ (hnames.nodup_iff.mpr hnd)
  · intro nf hnf
    exact exists_bucket_of_mem_join ((hperm.mem_iff).mpr hnf)
  · intro nf hnf hloc
    have h := mem_location_bucket hnf
    rwa [show fieldLocation nf.2 = "query" by simp [fieldLocation, hloc]] at h

/-- Witness for Claim C1 at a concrete input. -/
theorem automd_C1_witness :
    ((c1_params.map Prod.fst).Nodup)
    ∧ (((buckets_join (location_argmaps c1_params)).map Prod.fst).Perm
          (c1_params.map Prod.fst)
       ∧ List.Pairwise (fun g₁ g₂ => ∀ n, n ∈ g₁.2.map Prod.fst → n ∉ g₂.2.map Prod.fst)
           (location_argmaps c1_params)
       ∧ (∀ nf : String × Field, nf ∈ c1_params → ∃ g ∈ location_argmaps c1_params, nf ∈ g.2)
       ∧ (∀ nf : String × Field, nf ∈ c1_params → nf.2.location = none →
           ∃ b, lookupStr (location_argmaps c1_params) "query" = some b ∧ nf ∈ b)
       ∧ parse_parameter_schema type_field_mapping (some []) [] "/status" "get"
           = Except.ok ⟨[]⟩) :=
  ⟨by decide, automd_C1 type_field_mapping c1_params [] "/status" "get" (by decide)⟩

/-- When the table has no `None` key, the null descriptor resolves to itself. -/
theorem resolve_pynone (tbl : List (RVal × RVal)) (h : lookupTbl tbl RVal.pynone = none) :
    resolve_response_interface tbl RVal.pynone = Except.ok RVal.pynone := by
  simp [resolve_response_interface, h, get_name]

/-- Claim C2: `parse_response_schema` resolves a response descriptor with the
precedence (1) descriptor itself a table key, (2) the descriptor's `_name`
attribute a table key, (3) the descriptor as its own interface; and (4) a null
descriptor (with no table entry for `None`) yields an empty schema whose name
is the title-cased path segments, then the title-cased verb, then
`ResponseSchema`. -/
theorem automd_C2 (tbl : List (RVal × RVal)) (ro i : RVal) (p v : String) :
    (lookupTbl tbl ro = some i → resolve_response_interface tbl ro = Except.ok i)
    ∧ (∀ (o : RObj) (n : String), ro = RVal.obj o → o._name = some n →
        lookupTbl tbl ro = none → lookupTbl tbl (RVal.str n) = some i →
        resolve_response_interface tbl ro = Except.ok i)
    ∧ (lookupTbl tbl ro = none → lookupTbl tbl (get_name ro) = none →
        resolve_response_interface tbl ro = Except.ok ro)
    ∧ (lookupTbl tbl RVal.pynone = none →
        parse_response_schema tbl RVal.pynone p v
          = Except.ok (Schema.from_dict (url_name p ++ pyTitle v ++ "ResponseSchema") [],
              default_content_type)) := by
  refine ⟨?_, ?_, ?_, ?_⟩
  · intro h
    simp [resolve_response_interface, h]
  · intro o n hro hn h₁ h₂
    subst hro
    simp [resolve_response_interface, h₁, get_name, hn, h₂]
  · intro h₁ h₂
    simp [resolve_response_interface, h₁, h₂]
  · intro h
    simp [parse_response_schema, resolve_pynone tbl h, get_to_schema, get_content_type]

/-- Witness for Claim C2 at concrete inputs: the exact-key tier fires on a
table hit, and the null descriptor synthesizes the named empty schema with
the default content type. -/
theorem automd_C2_witness :
    (lookupTbl c2_tbl (RVal.str "ValueResponse") = some c2_iface
     ∧ resolve_response_interface c2_tbl (RVal.str "ValueResponse") = Except.ok c2_iface)
    ∧ (lookupTbl c2_tbl RVal.pynone = none
       ∧ parse_response_schema c2_tbl RVal.pynone "/status" "get"
           = Except.ok
               (Schema.from_dict (url_name "/status" ++ pyTitle "get" ++ "ResponseSchema") [],
                default_content_type)) :=
  ⟨⟨rfl, (automd_C2 c2_tbl (RVal.str "ValueResponse") c2_iface "/status" "get").1 rfl⟩,
   ⟨rfl, (automd_C2 c2_tbl RVal.pynone c2_iface "/status" "get").2.2.2 rfl⟩⟩

/-- Claim C3: when the resolved interface lacks the content-type capability
the resolver recovers locally with the fixed default media type `text/plain`;
that failure kind is never fatal — the only fatality of
`parse_response_schema` is a missing `to_schema` on a non-null interface —
and the returned content type is then the non-empty default. -/
theorem automd_C3 (tbl : List (RVal × RVal)) (ro ri : RVal) (p v : String)
    (hres : resolve_response_interface tbl ro = Except.ok ri)
    (hct : get_content_type ri = none) :
    (∀ s ct, parse_response_schema tbl ro p v = Except.ok (s, ct) →
        ct = default_content_type ∧ ct ≠ "")
    ∧ (∀ e, parse_response_schema tbl ro p v = Except.error e →
        e = PyError.attributeError ∧ ri ≠ RVal.pynone ∧ get_to_schema ri = none)
    ∧ default_content_type = "text/plain" := by
  refine ⟨?_, ?_, rfl⟩
  · intro s ct hok
    simp only [parse_response_schema, hres] at hok
    by_cases hri : ri = RVal.pynone
    · simp only [hri, if_pos rfl, get_content_type] at hok
      cases hok
      exact ⟨rfl, by simp [default_content_type]⟩
    · simp only [if_neg hri, hct] at hok
      cases h₂ : get_to_schema ri with
      | none => simp [h₂] at hok
      | some s₀ =>
        simp only [h₂] at hok
        cases hok
        exact ⟨rfl, by simp [default_content_type]⟩
  · intro e herr
    simp only [parse_response_schema, hres] at herr
    by_cases hri : ri = RVal.pynone
    · simp [hri, get_content_type] at herr
    · simp only [if_neg hri, hct] at herr
      cases h₂ : get_to_schema ri with
      | none =>
        simp only [h₂] at herr
        cases herr
        exact ⟨rfl, hri, rfl⟩
      | some s₀ => simp [h₂] at herr

/-- Witness for Claim C3 at a concrete input: a descriptor outside the table
without a name match, lacking `content_type`, resolves to itself and the
returned content type is the non-empty default `text/plain`. -/
theorem automd_C3_witness :
    resolve_response_interface c2_tbl c3_ro = Except.ok c3_ro
    ∧ get_content_type c3_ro = none
    ∧ parse_response_schema c2_tbl c3_ro "/status" "get"
        = Except.ok (Schema.obj 3, default_content_type)
    ∧ (default_content_type = "text/plain" ∧ default_content_type ≠ "") :=
  ⟨rfl, rfl, rfl,
   by
    have h := (automd_C3 c2_tbl c3_ro c3_ro "/status" "get" rfl rfl).1
      (Schema.obj 3) default_content_type rfl
    exact ⟨(automd_C3 c2_tbl c3_ro c3_ro "/status" "get" rfl rfl).2.2, h.2⟩⟩

/-- Claim C10: the two pipeline variants differ on the null response
descriptor.  With `None` absent from the table, the AutoMD resolver returns
the synthesized empty schema with the default content type, while the AutoAPI
registrar calls `to_schema` on the null interface and the registration fails
with an `AttributeError`. -/
theorem automd_C10 (tbl : List (RVal × RVal)) (p v : String)
    (h : lookupTbl tbl RVal.pynone = none) :
    parse_response_schema tbl RVal.pynone p v
      = Except.ok (Schema.from_dict (url_name p ++ pyTitle v ++ "ResponseSchema") [],
          default_content_type)
    ∧ ∀ (aa : AutoMDConfig) (api_spec : APISpecDoc) (code : Nat)
        (su de : Option String) (po : List (String × Field)) (tags : Option (List Tag)),
        autoapi_register_path aa tbl api_spec p v code su de (some po) RVal.pynone tags
          = Except.error PyError.attributeError := by
  constructor
  · simp [parse_response_schema, resolve_pynone tbl h, get_to_schema, get_content_type]
  · intro aa api_spec code su de po tags
    simp [autoapi_register_path, autoapi_resolve_response, resolve_pynone tbl h,
      get_to_schema]

/-- Witness for Claim C10 at concrete inputs: with the empty table, automd
synthesizes the schema while autoapi fails. -/
theorem automd_C10_witness :
    lookupTbl [] RVal.pynone = none
    ∧ parse_response_schema [] RVal.pynone "/status" "get"
        = Except.ok
            (Schema.from_dict (url_name "/status" ++ pyTitle "get" ++ "ResponseSchema") [],
             default_content_type)
    ∧ autoapi_register_path ⟨"TestApp", none⟩ [] start_spec "/status" "get" 200
        none none (some []) RVal.pynone none
        = Except.error PyError.attributeError :=
  ⟨rfl, (automd_C10 [] "/status" "get" rfl).1,
   (automd_C10 [] "/status" "get" rfl).2 ⟨"TestApp", none⟩ start_spec 200 none none [] none⟩

/-- Claim C4: an inferred field descriptor is required exactly when the
parameter declares no default value, a declared default is recorded as the
documentation-only `doc_default`, and the scenario signature
`(self, text: str = "Hello AutoMD")` infers a non-required string field. -/
theorem automd_C4 (tfm : TypeAnn → Option FieldType) (p : Param) (f : Field)
    (hf : inferField tfm p = Except.ok f) :
    (f.required = true ↔ p.default = none)
    ∧ (∀ d, p.default = some d → f.doc_default = some d)
    ∧ inferParams type_field_mapping
        [⟨"self", TypeAnn.other "Status", none⟩,
         ⟨"text", TypeAnn.str, some (PyVal.str "Hello AutoMD")⟩]
        = Except.ok [("text",
            { required := false,
              doc_default := some (PyVal.str "Hello AutoMD"),
              fieldType := some FieldType.string })] := by
  cases h : tfm p.annot with
  | none => rw [inferField, h] at hf; cases hf
  | some ft =>
    rw [inferField, h] at hf
    cases hf
    refine ⟨?_, ?_, rfl⟩
    · simp [mkInferredField, Option.isNone_iff_eq_none]
    · intro d hd
      simp [mkInferredField, hd]

/-- Witness for Claim C4 at a concrete input. -/
theorem automd_C4_witness :
    inferField type_field_mapping c4_param = Except.ok c4_field
    ∧ ((c4_field.required = true ↔ c4_param.default = none)
       ∧ (∀ d, c4_param.default = some d → c4_field.doc_default = some d)
       ∧ inferParams type_field_mapping
           [⟨"self", TypeAnn.other "Status", none⟩,
            ⟨"text", TypeAnn.str, some (PyVal.str "Hello AutoMD")⟩]
           = Except.ok [("text",
               { required := false,
                 doc_default := some (PyVal.str "Hello AutoMD"),
                 fieldType := some FieldType.string })]) :=
  ⟨rfl, automd_C4 type_field_mapping c4_param c4_field rfl⟩

/-- Claim C5 (code bug): for a parameter whose default is exactly `None`, the
line `field_args["allow_none"] = param.default` (automd.py line 81) passes
the default value — the Python `None` itself — as the `allow_none` keyword,
not the boolean `True` the spec describes; an `allow_none=None` keyword is
the field library's "unspecified" sentinel, so the field is not marked
nullable. -/
theorem automd_C5_allow_none_bug :
    (inferField type_field_mapping c5_param).map Field.allow_none
      = Except.ok (some PyVal.pynone)
    ∧ (inferField type_field_mapping c5_param).map Field.allow_none
      ≠ Except.ok (some (PyVal.bool true)) := by
  constructor
  · rfl
  · intro h
    rw [show (inferField type_field_mapping c5_param).map Field.allow_none
          = Except.ok (some PyVal.pynone) from rfl] at h
    cases h

theorem inferParams_unmapped {tfm : TypeAnn → Option FieldType} :
    ∀ {sig : List Param} {p : Param}, p ∈ sig → p.name ≠ "self" →
      tfm p.annot = none → inferParams tfm sig = Except.error PyError.keyError := by
  intro sig
  induction sig with
  | nil => intro p hp; cases hp
  | cons q rest ih =>
    intro p hp hself hun
    rcases List.mem_cons.mp hp with rfl | hmem
    · simp only [inferParams, if_neg hself, hun]
    · by_cases hq : q.name = "self"
      · simp only [inferParams, if_pos hq]
        exact ih hmem hself hun
      · simp only [inferParams, if_neg hq]
        cases h : tfm q.annot with
        | none => rfl
        | some ft => rw [ih hmem hself hun]

/-- Claim C6: when any (non-`self`) parameter's annotation has no entry in
the type-to-field table, the inference loop fails with the `KeyError` of the
table lookup, and so does `parse_parameter_schema` with no explicit parameter
object — the endpoint's registration produces no descriptor. -/
theorem automd_C6 (tfm : TypeAnn → Option FieldType) (sig : List Param) (p : Param)
    (hp : p ∈ sig) (hself : p.name ≠ "self") (hun : tfm p.annot = none) :
    inferParams tfm sig = Except.error PyError.keyError
    ∧ ∀ (path v : String),
        parse_parameter_schema tfm none sig path v = Except.error PyError.keyError := by
  have h₁ := inferParams_unmapped hp hself hun
  refine ⟨h₁, ?_⟩
  intro path v
  simp [parse_parameter_schema, h₁]

/-- Witness for Claim C6 at a concrete input. -/
theorem automd_C6_witness :
    c6_param ∈ c6_sig
    ∧ c6_param.name ≠ "self"
    ∧ type_field_mapping c6_param.annot = none
    ∧ (inferParams type_field_mapping c6_sig = Except.error PyError.keyError
       ∧ ∀ (path v : String),
           parse_parameter_schema type_field_mapping none c6_sig path v
             = Except.error PyError.keyError) :=
  ⟨by decide, by decide, rfl,
   automd_C6 type_field_mapping c6_sig c6_param (by decide) (by decide) rfl⟩

theorem lookupStr_assoc_set_self {α : Type} (l : List (String × α)) (k : String) (v : α) :
    lookupStr (assoc_set l k v) k = some v := by
  induction l with
  | nil => simp [assoc_set, lookupStr]
  | cons g rest ih =>
    obtain ⟨k₀, v₀⟩ := g
    by_cases h : k₀ = k
    · simp [assoc_set, h, lookupStr]
    · simp [assoc_set, h, lookupStr, ih]

theorem assoc_set_assoc_set {α : Type} (l : List (String × α)) (k : String) (v : α) :
    assoc_set (assoc_set l k v) k v = assoc_set l k v := by
  induction l with
  | nil => simp [assoc_set]
  | cons g rest ih =>
    obtain ⟨k₀, v₀⟩ := g
    by_cases h : k₀ = k
    · simp [assoc_set, h]
    · simp [assoc_set, h, ih]

/-- Re-registering the same operation under the same key leaves the document
unchanged. -/
theorem spec_path_idem (doc : APISpecDoc) (p v : String) (op : Operation) :
    spec_path (spec_path doc p v op) p v op = spec_path doc p v op := by
  simp only [spec_path, lookupStr_assoc_set_self, Option.getD_some]
  rw [assoc_set_assoc_set, assoc_set_assoc_set]

/-- The defaulted tags sequence is never empty. -/
theorem tags_or_default_ne_nil (tags : Option (List Tag)) (d : Tag) :
    tags_or_default tags d ≠ [] := by
  cases tags with
  | none => simp [tags_or_default]
  | some l => cases l <;> simp [tags_or_default]

/-- Elimination for a successful `register_path`: the produced document is the
input document with the assembled operation inserted under
`(path_url, http_verb.lower())`, the operation's tags are the defaulted tags,
and the same registration succeeds identically from any starting document. -/
theorem register_path_ok_elim {am : AutoMDConfig} {tfm : TypeAnn → Option FieldType}
    {tbl : List (RVal × RVal)} {api_spec : APISpecDoc}
    {path_url http_verb : String} {response_code : Nat}
    {summary description : Option String} {po : Option (List (String × Field))}
    {ro : RVal} {sig : List Param} {tags : Option (List Tag)} {doc₀ : APISpecDoc}
    (h : register_path am tfm tbl api_spec path_url http_verb response_code
          summary description po ro sig tags = Except.ok doc₀) :
    ∃ op : Operation,
      doc₀ = spec_path api_spec path_url (pyLower http_verb) op
      ∧ op.tags = tags_or_default tags am.default_tag_value
      ∧ ∀ doc₂ : APISpecDoc,
          register_path am tfm tbl doc₂ path_url http_verb response_code
            summary description po ro sig tags
            = Except.ok (spec_path doc₂ path_url (pyLower http_verb) op) := by
  simp only [register_path] at h ⊢
  cases hps : parse_parameter_schema tfm po sig path_url http_verb with
  | error e => rw [hps] at h; simp at h
  | ok ps =>
    simp only [hps] at h ⊢
    cases hrs : parse_response_schema tbl ro path_url http_verb with
    | error e => rw [hrs] at h; simp at h
    | ok rs =>
      simp only [hrs] at h ⊢
      cases hd : http_client_responses response_code with
      | none => rw [hd] at h; simp at h
      | some desc =>
        simp only [hd] at h ⊢
        injection h with h₀
        exact ⟨_, h₀.symm, rfl, fun doc₂ => rfl⟩

/-- Claim C7: a successful registration always leaves a non-empty tags
sequence on the registered operation, and when no tags were supplied the tags
are the one-element default derived from the `default_tag` argument or the
application title. -/
theorem automd_C7 (am : AutoMDConfig) (tfm : TypeAnn → Option FieldType)
    (tbl : List (RVal × RVal)) (api_spec : APISpecDoc)
    (path_url http_verb : String) (response_code : Nat)
    (summary description : Option String) (po : Option (List (String × Field)))
    (ro : RVal) (sig : List Param) (tags : Option (List Tag)) (doc₀ : APISpecDoc)
    (h : register_path am tfm tbl api_spec path_url http_verb response_code
          summary description po ro sig tags = Except.ok doc₀) :
    ∃ op : Operation,
      lookupStr ((lookupStr doc₀.paths path_url).getD []) (pyLower http_verb) = some op
      ∧ op.tags ≠ []
      ∧ op.tags = tags_or_default tags am.default_tag_value
      ∧ (tags = none → op.tags = [am.default_tag_value]) := by
  obtain ⟨op, rfl, htags, -⟩ := register_path_ok_elim h
  refine ⟨op, ?_, ?_, htags, ?_⟩
  · simp [spec_path, lookupStr_assoc_set_self]
  · rw [htags]; exact tags_or_default_ne_nil tags am.default_tag_value
  · intro ht; subst ht; rw [htags]; rfl

/-- Witness for Claim C7 at a concrete registration without supplied tags. -/
theorem automd_C7_witness :
    register_path ⟨"TestApp", none⟩ type_field_mapping [] start_spec "/status" "GET"
      200 none none (some []) RVal.pynone [] none = Except.ok c7_doc
    ∧ ∃ op : Operation,
        lookupStr ((lookupStr c7_doc.paths "/status").getD []) (pyLower "GET") = some op
        ∧ op.tags ≠ []
        ∧ op.tags = tags_or_default none (AutoMDConfig.default_tag_value ⟨"TestApp", none⟩)
        ∧ ((none : Option (List Tag)) = none →
            op.tags = [AutoMDConfig.default_tag_value ⟨"TestApp", none⟩]) :=
  ⟨rfl,
   automd_C7 ⟨"TestApp", none⟩ type_field_mapping [] start_spec "/status" "GET" 200
     none none (some []) RVal.pynone [] none c7_doc rfl⟩

/-- Claim C8: registering the same `(path, verb)` twice raises no uniqueness
error; re-registering identical inputs returns the document unchanged, and
with a different second input the entry under the key is the one the second
registration alone would produce (last-write-wins). -/
theorem automd_C8 (am : AutoMDConfig) (tfm : TypeAnn → Option FieldType)
    (tbl : List (RVal × RVal)) (api_spec : APISpecDoc)
    (path_url http_verb : String) (response_code : Nat)
    (summary description : Option String) (po : Option (List (String × Field)))
    (ro : RVal) (sig : List Param) (tags : Option (List Tag)) (doc₁ : APISpecDoc)
    (h : register_path am tfm tbl api_spec path_url http_verb response_code
          summary description po ro sig tags = Except.ok doc₁) :
    register_path am tfm tbl doc₁ path_url http_verb response_code
        summary description po ro sig tags = Except.ok doc₁
    ∧ ∀ (code₂ : Nat) (su₂ de₂ : Option String) (po₂ : Option (List (String × Field)))
        (ro₂ : RVal) (sig₂ : List Param) (tags₂ : Option (List Tag))
        (doc₂ doc₂' : APISpecDoc),
        register_path am tfm tbl doc₁ path_url http_verb code₂ su₂ de₂ po₂ ro₂ sig₂ tags₂
          = Except.ok doc₂ →
        register_path am tfm tbl api_spec path_url http_verb code₂ su₂ de₂ po₂ ro₂ sig₂ tags₂
          = Except.ok doc₂' →
        lookupStr ((lookupStr doc₂.paths path_url).getD []) (pyLower http_verb)
          = lookupStr ((lookupStr doc₂'.paths path_url).getD []) (pyLower http_verb) := by
  obtain ⟨op, rfl, -, hall⟩ := register_path_ok_elim h
  constructor
  · rw [hall (spec_path api_spec path_url (pyLower http_verb) op), spec_path_idem]
  · intro code₂ su₂ de₂ po₂ ro₂ sig₂ tags₂ doc₂ doc₂' h₂ h₃
    obtain ⟨op₂, rfl, -, hall₂⟩ := register_path_ok_elim h₂
    have h₄ := hall₂ api_spec
    rw [h₃] at h₄
    injection h₄ with h₅
    rw [h₅]
    simp [spec_path, lookupStr_assoc_set_self]

/-- Witness for Claim C8 at a concrete double registration. -/
theorem automd_C8_witness :
    register_path ⟨"T", none⟩ type_field_mapping [] start_spec "/s" "GET" 200
      none none (some []) RVal.pynone [] none = Except.ok c8_doc
    ∧ register_path ⟨"T", none⟩ type_field_mapping [] c8_doc "/s" "GET" 200
      none none (some []) RVal.pynone [] none = Except.ok c8_doc :=
  ⟨rfl,
   (automd_C8 ⟨"T", none⟩ type_field_mapping [] start_spec "/s" "GET" 200
     none none (some []) RVal.pynone [] none c8_doc rfl).1⟩

theorem foldE_ne_ok {α : Type} (f : APISpecDoc → α → Except PyError APISpecDoc) (x : α)
    (hf : ∀ d d', f d x ≠ Except.ok d') :
    ∀ (l : List α), x ∈ l → ∀ d d', foldE f d l ≠ Except.ok d' := by
  intro l
  induction l with
  | nil => intro hx; cases hx
  | cons y ys ih =>
    intro hx d d'
    rcases List.mem_cons.mp hx with rfl | hmem
    · simp only [foldE]
      cases h : f d x with
      | error e => simp
      | ok d₁ => exact absurd h (hf d d₁)
    · simp only [foldE]
      cases h : f d y with
      | error e => simp
      | ok d₁ => exact ih hmem d₁ d'

/-- Claim C9: the introspector registers every marked handler with the fixed
status code 200 and consults exactly the response descriptor stored under the
key `"200"`; when that key (or the whole mapping) is absent the entire build
fails rather than skipping the endpoint. -/
theorem automd_C9 (am : AutoMDConfig) (tfm : TypeAnn → Option FieldType)
    (tbl : List (RVal × RVal)) :
    (∀ (views : List View) (v : View) (ms : List String) (m : String) (attr : AutoMDAttr),
        v ∈ views → v.methods = some ms → m ∈ ms →
        lookupStr v.spec_attr (pyLower m) = some attr →
        (attr.response_schemas = none
         ∨ ∃ rs, attr.response_schemas = some rs ∧ lookupStr rs "200" = none) →
        ∀ doc, application_to_apispec am tfm tbl views ≠ Except.ok doc)
    ∧ (∀ (url m : String) (attr : AutoMDAttr) (rs : List (String × RVal)) (ro : RVal),
        attr.response_schemas = some rs → lookupStr rs "200" = some ro →
        application_to_apispec am tfm tbl [⟨some [m], url, [(pyLower m, attr)]⟩]
          = register_path am tfm tbl start_spec url m 200 attr.summary attr.description
              attr.parameter_schema ro attr.func_signature attr.tags) := by
  constructor
  · intro views v ms m attr hv hms hm hattr hbad doc
    have hfail : ∀ d d', register_view_method am tfm tbl d v m ≠ Except.ok d' := by
      intro d d'
      simp only [register_view_method, hattr]
      rcases hbad with hnone | ⟨rs, hrs, h200⟩
      · rw [hnone]; simp
      · rw [hrs]
        simp only []
        rw [h200]
        simp
    have hviewfail : ∀ d d', register_view am tfm tbl d v ≠ Except.ok d' := by
      intro d d'
      simp only [register_view, hms]
      exact foldE_ne_ok _ m hfail ms hm d d'
    simp only [application_to_apispec]
    exact foldE_ne_ok _ v hviewfail views hv start_spec doc
  · intro url m attr rs ro hrs h200
    cases hreg : register_path am tfm tbl start_spec url m 200 attr.summary
        attr.description attr.parameter_schema ro attr.func_signature attr.tags with
    | error e =>
      simp [application_to_apispec, foldE, register_view, register_view_method,
        lookupStr, hrs, h200, hreg]
    | ok d =>
      simp [application_to_apispec, foldE, register_view, register_view_method,
        lookupStr, hrs, h200, hreg]

/-- Witness for Claim C9 at concrete inputs: the build with no `"200"` key in
the metadata never succeeds, and a single marked view builds exactly the
registration of its `"200"` descriptor at code 200. -/
theorem automd_C9_witness :
    (∀ doc, application_to_apispec ⟨"T", none⟩ type_field_mapping [] [c9_view_bad]
        ≠ Except.ok doc)
    ∧ application_to_apispec ⟨"T", none⟩ type_field_mapping [] [c9_view_ok]
        = register_path ⟨"T", none⟩ type_field_mapping [] start_spec "/s" "GET" 200
            none none (some []) RVal.pynone [] none :=
  ⟨fun doc =>
    (automd_C9 ⟨"T", none⟩ type_field_mapping []).1 [c9_view_bad] c9_view_bad
      ["GET"] "GET" c9_attr_bad (List.mem_singleton.mpr rfl) rfl
      (List.mem_singleton.mpr rfl) rfl (Or.inr ⟨[], rfl, rfl⟩) doc,
   (automd_C9 ⟨"T", none⟩ type_field_mapping []).2 "/s" "GET" c9_attr_ok
     [("200", RVal.pynone)] RVal.pynone rfl rfl⟩

end AutoMDSpec
